import Mathlib

/-!
Shallow embedding of the booking/payment core of the Vendor-saas-mvp
repository: the availability engine and booking lifecycle
(server/services/bookingService.js, server/controllers/bookingController.js),
the payment orchestration (server/controllers/paymentController.js,
server/services/stripeService.js) and the metrics aggregator
(BookingService.getBookingMetrics).

Modelling conventions:
- timestamps (JS `Date` values, compared with `<`, `>=` after parsing ISO
  strings) are integers (`Int`);
- JS numbers holding currency amounts are rationals (`Rat`);
- `Math.round(x)` is `Int.floor (x + 1/2)` (JS rounds half toward positive
  infinity);
- Firestore documents are records in Lean lists; `doc.get` is `List.find?`
  on the id, `doc.update` merges fields into the matching record;
- status fields are the literal strings the code compares against;
- thrown errors become `Except` error values; a webhook handler that
  catches and only logs an error leaves the state unchanged.
-/

/-- A booking document, with the fields the core reads and writes. -/
structure Booking where
  id : String
  listingId : String
  vendorId : String
  userId : String
  startTime : Int
  endTime : Int
  status : String
  paymentStatus : String
  totalAmount : Rat
  customerName : String := ""
  customerEmail : String := ""
  customerPhone : String := ""
  notes : String := ""
  stripePaymentIntentId : Option String
  stripePaymentId : Option String
  cancelledBy : Option String
  cancelledAt : Option Int
  cancelReason : Option String
  createdAt : Int
  updatedAt : Option Int
deriving DecidableEq, Repr

/-- A listing document (the fields booking creation reads). -/
structure Listing where
  id : String
  vendorId : String
  price : Rat
  status : String
deriving DecidableEq, Repr

/-- A transaction ledger record, as written by the payment webhook handler. -/
structure Transaction where
  bookingId : String
  vendorId : String
  amount : Rat
  fee : Rat
  net : Rat
  stripePaymentId : String
  status : String
  createdAt : Int
deriving DecidableEq, Repr

/-- The boolean overlap test of `BookingService.checkAvailability`
(bookingService.js lines 87-91): three disjuncts comparing the candidate
interval `[s, e)` against an existing booking interval `[bs, be)`. -/
def overlapCond (s e bs be : Int) : Bool :=
  (decide (bs ≤ s) && decide (s < be)) ||
  (decide (bs < e) && decide (e ≤ be)) ||
  (decide (s ≤ bs) && decide (be ≤ e))

/-- The `for` loop of `checkAvailability` (lines 82-94): returns `false` on
the first booking whose interval satisfies `overlapCond`, `true` when the
list is exhausted. -/
def checkLoop (s e : Int) : List Booking → Bool
  | [] => true
  | b :: rest =>
      if overlapCond s e b.startTime b.endTime then false
      else checkLoop s e rest

/-- The booking query of `checkAvailability` (lines 76-79): bookings of the
listing whose status is in `{pending, confirmed}`. -/
def relevantBookings (listingId : String) (allBookings : List Booking) : List Booking :=
  allBookings.filter fun b =>
    decide (b.listingId = listingId) &&
    (decide (b.status = "pending") || decide (b.status = "confirmed"))

/-- `BookingService.checkAvailability` (bookingService.js lines 65-101):
throws when `start >= end`, otherwise scans the pending/confirmed bookings
of the listing for an overlap. -/
def checkAvailability (listingId : String) (startTime endTime : Int)
    (allBookings : List Booking) : Except String Bool :=
  if endTime ≤ startTime then
    Except.error "End time must be after start time"
  else
    Except.ok (checkLoop startTime endTime (relevantBookings listingId allBookings))

/-- The half-open overlap predicate of the specification: `[s1, e1)` and
`[s2, e2)` overlap iff `s1 < e2` and `s2 < e1`. -/
def halfOpenOverlap (s e bs be : Int) : Prop := s < be ∧ bs < e

lemma overlapCond_iff (s e bs be : Int) (hse : s < e) (hb : bs < be) :
    overlapCond s e bs be = true ↔ halfOpenOverlap s e bs be := by
  simp only [overlapCond, halfOpenOverlap, Bool.or_eq_true, Bool.and_eq_true,
    decide_eq_true_eq]
  omega

lemma checkLoop_eq_true_iff (s e : Int) (l : List Booking) :
    checkLoop s e l = true ↔
      ∀ b ∈ l, overlapCond s e b.startTime b.endTime = false := by
  induction l with
  | nil => simp [checkLoop]
  | cons b rest ih =>
      by_cases h : overlapCond s e b.startTime b.endTime = true
      · simp [checkLoop, h]
      · simp only [Bool.not_eq_true] at h
        simp [checkLoop, h, ih]

lemma mem_relevantBookings {listingId : String} {allBookings : List Booking}
    {b : Booking} :
    b ∈ relevantBookings listingId allBookings ↔
      b ∈ allBookings ∧ b.listingId = listingId ∧
        (b.status = "pending" ∨ b.status = "confirmed") := by
  simp only [relevantBookings, List.mem_filter, Bool.and_eq_true,
    Bool.or_eq_true, decide_eq_true_eq]

/-- C1. For every listing id and candidate interval with `startTime < endTime`,
and any store of well-formed bookings (each with `startTime < endTime`),
`checkAvailability` returns `true` iff no booking of that listing with status
`pending` or `confirmed` overlaps the candidate under half-open semantics
(`[s1,e1)` and `[s2,e2)` overlap iff `s1 < e2` and `s2 < e1`); the loop
embedding (`checkLoop`) returns `false` at the first overlapping booking. -/
theorem checkAvailability_halfOpen_iff (listingId : String) (s e : Int)
    (allBookings : List Booking) (hse : s < e)
    (hwf : ∀ b ∈ allBookings, b.startTime < b.endTime) :
    checkAvailability listingId s e allBookings = Except.ok true ↔
      ∀ b ∈ allBookings,
        (b.listingId = listingId ∧ (b.status = "pending" ∨ b.status = "confirmed")) →
          ¬ halfOpenOverlap s e b.startTime b.endTime := by
  have hnot : ¬ e ≤ s := by omega
  simp only [checkAvailability, if_neg hnot, Except.ok.injEq]
  rw [checkLoop_eq_true_iff]
  constructor
  · intro h b hb hcond hover
    have hmem : b ∈ relevantBookings listingId allBookings :=
      mem_relevantBookings.mpr ⟨hb, hcond.1, hcond.2⟩
    have hfalse := h b hmem
    rw [(overlapCond_iff s e b.startTime b.endTime hse (hwf b hb)).mpr hover] at hfalse
    exact absurd hfalse (by decide)
  · intro h b hb
    obtain ⟨hmem, hlid, hst⟩ := mem_relevantBookings.mp hb
    have hno := h b hmem ⟨hlid, hst⟩
    by_contra hcond
    simp only [Bool.not_eq_false] at hcond
    exact hno ((overlapCond_iff s e b.startTime b.endTime hse (hwf b hmem)).mp hcond)

/-- A concrete booking used to witness C1: a pending booking on listing `L`
occupying `[11, 12)`. -/
def c1Booking : Booking :=
  { id := "b1", listingId := "L", vendorId := "v1", userId := "u1",
    startTime := 11, endTime := 12, status := "pending",
    paymentStatus := "pending", totalAmount := 50,
    stripePaymentIntentId := none, stripePaymentId := none,
    cancelledBy := none, cancelledAt := none, cancelReason := none,
    createdAt := 0, updatedAt := none }

/-- Witness for C1 at a concrete input: a candidate `[10, 11)` touching the
existing `[11, 12)` pending booking is reported available. -/
theorem checkAvailability_halfOpen_iff_witness :
    checkAvailability "L" 10 11 [c1Booking] = Except.ok true :=
  (checkAvailability_halfOpen_iff "L" 10 11 [c1Booking] (by decide)
    (by intro b hb; simp only [List.mem_singleton] at hb; subst hb; decide)).mpr
    (by intro b hb; simp only [List.mem_singleton] at hb; subst hb
        intro _ hover; exact absurd hover.2 (by decide))

/-! ## Payment orchestration (paymentController.js, stripeService.js) -/

/-- The fields the webhook handlers read off a Stripe payment intent:
its id, its amount in minor units (cents), and the booking/vendor ids
stored in its metadata. -/
structure PaymentIntent where
  id : String
  amount : Int
  bookingId : String
  vendorId : String
deriving DecidableEq, Repr

/-- The persisted state the payment orchestrator touches: the bookings
collection and the transactions collection. -/
structure DB where
  bookings : List Booking
  transactions : List Transaction
deriving DecidableEq, Repr

/-- Firestore `bookingRef.update(...)`: merge fields into the document with
the given id, leaving every other document unchanged (and the store
unchanged when the id is absent, as the handlers catch and only log the
resulting error). -/
def updateBookingDoc (bookings : List Booking) (bookingId : String)
    (f : Booking → Booking) : List Booking :=
  bookings.map fun b => if b.id = bookingId then f b else b

/-- `handleSuccessfulPayment` (paymentController.js lines 136-175): loads the
booking (logging and leaving state unchanged when absent), sets
`paymentStatus = paid` and stores the external payment id on it, then
unconditionally appends a transaction record with `amount = intent.amount/100`,
`fee = amount * 0.05`, `net = amount - fee`, `status = completed`. -/
def handleSuccessfulPayment (intent : PaymentIntent) (now : Int) (db : DB) : DB :=
  match db.bookings.find? (fun b => b.id = intent.bookingId) with
  | none => db
  | some _ =>
      let bookings := updateBookingDoc db.bookings intent.bookingId fun b =>
        { b with paymentStatus := "paid", stripePaymentId := some intent.id }
      let amount : Rat := (intent.amount : Rat) / 100
      let fee : Rat := amount * (5 / 100)
      let net : Rat := amount - fee
      { bookings := bookings
        transactions := db.transactions ++
          [{ bookingId := intent.bookingId, vendorId := intent.vendorId,
             amount := amount, fee := fee, net := net,
             stripePaymentId := intent.id, status := "completed",
             createdAt := now }] }

/-- `handleFailedPayment` (paymentController.js lines 181-196): writes
`paymentStatus = failed` on the booking named by the intent metadata, with no
check of the current payment status. -/
def handleFailedPayment (intent : PaymentIntent) (db : DB) : DB :=
  { db with
    bookings := updateBookingDoc db.bookings intent.bookingId fun b =>
      { b with paymentStatus := "failed" } }

/-- A pending booking used as the concrete store for the webhook claims. -/
def c2Booking : Booking :=
  { id := "b1", listingId := "L", vendorId := "v1", userId := "u1",
    startTime := 100, endTime := 200, status := "confirmed",
    paymentStatus := "pending", totalAmount := 100,
    stripePaymentIntentId := some "pi_1", stripePaymentId := none,
    cancelledBy := none, cancelledAt := none, cancelReason := none,
    createdAt := 0, updatedAt := none }

/-- The payment-succeeded event for `c2Booking`, external payment id `pi_1`. -/
def c2Intent : PaymentIntent :=
  { id := "pi_1", amount := 10000, bookingId := "b1", vendorId := "v1" }

/-- C2. Applying the same payment-succeeded event (external payment id
`pi_1`) twice appends a transaction record both times: the handler never
checks for an existing transaction with that external payment id, so the
store ends with two transactions for `pi_1`, not one. -/
theorem handleSuccessfulPayment_not_idempotent :
    ((handleSuccessfulPayment c2Intent 1 (handleSuccessfulPayment c2Intent 1
        { bookings := [c2Booking], transactions := [] })).transactions.filter
      (fun t => t.stripePaymentId = "pi_1")).length = 2 := by decide

/-- A booking already paid, for the stale payment-failed claim. -/
def c3Booking : Booking :=
  { c2Booking with paymentStatus := "paid", stripePaymentId := some "pi_1" }

/-- C3. A payment-failed event arriving for a booking whose paymentStatus is
already `paid` overwrites it to `failed`: the handler performs no check of
the current payment status before writing. -/
theorem handleFailedPayment_overwrites_paid :
    c3Booking.paymentStatus = "paid" ∧
    ((handleFailedPayment c2Intent
        { bookings := [c3Booking], transactions := [] }).bookings.map
      (fun b => b.paymentStatus)) = ["failed"] := by decide

/-- JS `Math.round`: floor of `x + 1/2` (halves round toward positive
infinity). -/
def jsRound (x : Rat) : Int := ⌊x + 1 / 2⌋

/-- The platform fee passed to the processor by `createPaymentIntent`
(paymentController.js line 34, stripeService.js line 23):
`Math.round(amount * 0.05)`, computed directly on the major-unit (dollar)
amount from the request body. -/
def applicationFeeAmount (amount : Rat) : Int := jsRound (amount * (5 / 100))

/-- The charged amount sent to the processor (paymentController.js line 38):
`Math.round(amount * 100)`, the major-unit amount converted to cents. -/
def stripeAmountCents (amount : Rat) : Int := jsRound (amount * 100)

/-- C5. At amount 100 (dollars) the code charges 10000 cents but passes a
platform fee of 5, not the 500 = round(100 × 100 × 0.05) that a fee of 5
percent expressed in cents would require: the fee is never converted to
minor units. -/
theorem applicationFeeAmount_not_in_cents :
    stripeAmountCents 100 = 10000 ∧ applicationFeeAmount 100 = 5 ∧
      applicationFeeAmount 100 ≠ jsRound (100 * 100 * (5 / 100)) := by
  norm_num [stripeAmountCents, applicationFeeAmount, jsRound]

/-! ## Booking creation and cancellation (bookingService.js) -/

/-- JS `x || d` on an optional numeric field: `undefined` and `0` are falsy,
any other number is kept. -/
def jsOrNum (x : Option Rat) (d : Rat) : Rat :=
  match x with
  | none => d
  | some a => if a = 0 then d else a

/-- JS `x || d` on an optional string field: `undefined` and the empty
string are falsy, any other string is kept. -/
def jsOrStr (x : Option String) (d : String) : String :=
  match x with
  | none => d
  | some s => if s = "" then d else s

/-- The caller-supplied booking data read by `BookingService.createBooking`
(`bookingData`): the fields the service inspects, with `totalAmount` and
`status` optional because the code falls back on defaults via `||`. -/
structure BookingData where
  listingId : String
  userId : String
  startTime : Int
  endTime : Int
  totalAmount : Option Rat
  status : Option String
deriving DecidableEq, Repr

/-- The error messages `createBooking` can throw, as an enumeration:
`notFound` is "Listing not found", `inactive` is "Listing is not active",
`invalidRange` is "End time must be after start time" (propagated from
`checkAvailability`), `conflict` is "The requested time slot is not
available". -/
inductive CreateError where
  | notFound
  | inactive
  | invalidRange
  | conflict
deriving DecidableEq, Repr

/-- `BookingService.createBooking` (bookingService.js lines 13-56): loads
the listing, requires it active, runs `checkAvailability` (whose range
error propagates), then persists the new booking built from the spread of
`bookingData` with `vendorId` from the listing, `totalAmount` defaulting to
`listing.price`, `status` defaulting to `"pending"`, and `paymentStatus`
forced to `"pending"`. -/
def createBooking (listings : List Listing) (bookings : List Booking)
    (bd : BookingData) (newId : String) (now : Int) : Except CreateError Booking :=
  match listings.find? (fun l => l.id = bd.listingId) with
  | none => Except.error CreateError.notFound
  | some listing =>
      if listing.status ≠ "active" then Except.error CreateError.inactive
      else
        match checkAvailability bd.listingId bd.startTime bd.endTime bookings with
        | Except.error _ => Except.error CreateError.invalidRange
        | Except.ok false => Except.error CreateError.conflict
        | Except.ok true =>
            Except.ok
              { id := newId, listingId := bd.listingId,
                vendorId := listing.vendorId, userId := bd.userId,
                startTime := bd.startTime, endTime := bd.endTime,
                status := jsOrStr bd.status "pending",
                paymentStatus := "pending",
                totalAmount := jsOrNum bd.totalAmount listing.price,
                stripePaymentIntentId := none, stripePaymentId := none,
                cancelledBy := none, cancelledAt := none, cancelReason := none,
                createdAt := now, updatedAt := none }

/-- C6. `createBooking` fails with `notFound` iff the listing is absent;
with `inactive` iff the listing exists but its status is not `active`; with
`invalidRange` iff the listing is active and `endTime ≤ startTime`; with
`conflict` iff the listing is active, the range is valid, and the
availability check reports the slot unavailable; and it succeeds with a
persisted booking iff none of the four failure conditions hold. -/
theorem createBooking_error_taxonomy (L : List Listing) (B : List Booking)
    (bd : BookingData) (newId : String) (now : Int) :
    (createBooking L B bd newId now = Except.error CreateError.notFound ↔
      L.find? (fun l => l.id = bd.listingId) = none) ∧
    (createBooking L B bd newId now = Except.error CreateError.inactive ↔
      (∃ l, L.find? (fun l2 => l2.id = bd.listingId) = some l ∧ l.status ≠ "active")) ∧
    (createBooking L B bd newId now = Except.error CreateError.invalidRange ↔
      (∃ l, L.find? (fun l2 => l2.id = bd.listingId) = some l ∧ l.status = "active") ∧
        bd.endTime ≤ bd.startTime) ∧
    (createBooking L B bd newId now = Except.error CreateError.conflict ↔
      (∃ l, L.find? (fun l2 => l2.id = bd.listingId) = some l ∧ l.status = "active") ∧
        bd.startTime < bd.endTime ∧
        checkAvailability bd.listingId bd.startTime bd.endTime B = Except.ok false) ∧
    ((∃ b, createBooking L B bd newId now = Except.ok b) ↔
      (∃ l, L.find? (fun l2 => l2.id = bd.listingId) = some l ∧ l.status = "active") ∧
        bd.startTime < bd.endTime ∧
        checkAvailability bd.listingId bd.startTime bd.endTime B = Except.ok true) := by
  unfold createBooking
  rcases hfind : L.find? (fun l => l.id = bd.listingId) with _ | l
  · simp [hfind]
  · by_cases hact : l.status = "active"
    · by_cases hrange : bd.endTime ≤ bd.startTime
      · have hca : checkAvailability bd.listingId bd.startTime bd.endTime B =
            Except.error "End time must be after start time" := by
          simp [checkAvailability, hrange]
        simp [hfind, hact, hca]
        omega
      · rcases hloop : checkLoop bd.startTime bd.endTime (relevantBookings bd.listingId B)
          with _ | _
        · have hca : checkAvailability bd.listingId bd.startTime bd.endTime B =
              Except.ok false := by
            simp [checkAvailability, hrange, hloop]
          simp [hfind, hact, hca]
          omega
        · have hca : checkAvailability bd.listingId bd.startTime bd.endTime B =
              Except.ok true := by
            simp [checkAvailability, hrange, hloop]
          simp [hfind, hact, hca]
          omega
    · simp [hfind, hact]

/-- A concrete active listing priced 50, for the booking-creation claims. -/
def c7Listing : Listing :=
  { id := "L", vendorId := "v1", price := 50, status := "active" }

/-- Caller-supplied booking data that carries its own `totalAmount` (999)
and `status` ("confirmed"). -/
def c7Data : BookingData :=
  { listingId := "L", userId := "u1", startTime := 10, endTime := 20,
    totalAmount := some 999, status := some "confirmed" }

/-- The booking `createBooking` actually persists for `c7Data`. -/
def c7Created : Booking :=
  { id := "b9", listingId := "L", vendorId := "v1", userId := "u1",
    startTime := 10, endTime := 20, status := "confirmed",
    paymentStatus := "pending", totalAmount := 999,
    stripePaymentIntentId := none, stripePaymentId := none,
    cancelledBy := none, cancelledAt := none, cancelReason := none,
    createdAt := 0, updatedAt := none }

/-- C7 counterexample: a successful service-level creation whose persisted
booking carries the caller-supplied totalAmount 999 (not the listing price
50) and the caller-supplied status "confirmed" (not "pending"), because the
service computes `bookingData.totalAmount || listing.price` and
`bookingData.status || "pending"`. -/
theorem createBooking_caller_override :
    createBooking [c7Listing] [] c7Data "b9" 0 = Except.ok c7Created ∧
      c7Created.totalAmount ≠ c7Listing.price ∧
      c7Created.status ≠ "pending" := ⟨rfl, by decide, by decide⟩

/-- C7 as amended: for every successful service-level booking creation, the
persisted booking always has `paymentStatus = "pending"`, while its
`totalAmount` is the caller-supplied amount when one is supplied (and
nonzero), defaulting to the listing price, and its `status` is the
caller-supplied status when one is supplied (and nonempty), defaulting to
`"pending"`. -/
theorem createBooking_ok_fields (L : List Listing) (B : List Booking)
    (bd : BookingData) (newId : String) (now : Int) (b : Booking) (l : Listing)
    (hfind : L.find? (fun l2 => l2.id = bd.listingId) = some l)
    (hok : createBooking L B bd newId now = Except.ok b) :
    b.paymentStatus = "pending" ∧
    b.totalAmount = jsOrNum bd.totalAmount l.price ∧
    b.status = jsOrStr bd.status "pending" := by
  unfold createBooking at hok
  rw [hfind] at hok
  by_cases hact : l.status = "active"
  · simp only [hact, ne_eq, not_true_eq_false, if_false, ite_false] at hok
    rcases hca : checkAvailability bd.listingId bd.startTime bd.endTime B
      with _ | bv
    · rw [hca] at hok
      exact absurd hok (by simp)
    · rw [hca] at hok
      cases bv
      · exact absurd hok (by simp)
      · simp only [Except.ok.injEq] at hok
        subst hok
        exact ⟨rfl, rfl, rfl⟩
  · simp [hact] at hok

/-- Witness for the amended C7 at a concrete input: applying
`createBooking_ok_fields` to the `c7Listing`/`c7Data` creation. -/
theorem createBooking_ok_fields_witness :
    c7Created.paymentStatus = "pending" ∧
    c7Created.totalAmount = jsOrNum c7Data.totalAmount c7Listing.price ∧
    c7Created.status = jsOrStr c7Data.status "pending" :=
  createBooking_ok_fields [c7Listing] [] c7Data "b9" 0 c7Created c7Listing
    (by decide) rfl

/-- The error cases of `BookingService.cancelBooking`: `notFound` is
"Booking not found", `unauthorized` is "Unauthorized to cancel this
booking", `alreadyCancelled` is "Booking is already cancelled",
`pastBooking` is "Cannot cancel past bookings". -/
inductive CancelError where
  | notFound
  | unauthorized
  | alreadyCancelled
  | pastBooking
deriving DecidableEq, Repr

/-- `BookingService.cancelBooking` (bookingService.js lines 175-219): loads
the booking; requires the requester to be its vendor or its customer;
rejects an already cancelled booking and a booking whose start time is
before the current time; otherwise writes status `cancelled` together with
the cancellation metadata and returns the updated record. -/
def cancelBooking (bookings : List Booking) (bookingId userId cancelReason : String)
    (now : Int) : Except CancelError Booking :=
  match bookings.find? (fun b => b.id = bookingId) with
  | none => Except.error CancelError.notFound
  | some b =>
      if b.vendorId ≠ userId ∧ b.userId ≠ userId then
        Except.error CancelError.unauthorized
      else if b.status = "cancelled" then
        Except.error CancelError.alreadyCancelled
      else if b.startTime < now then
        Except.error CancelError.pastBooking
      else
        Except.ok { b with
          status := "cancelled"
          cancelReason := some cancelReason
          cancelledBy := some userId
          cancelledAt := some now
          updatedAt := some now }

/-- C8. Cancelling fails with `notFound` iff the booking is absent; with
`unauthorized` iff it exists and the requester is neither its vendor nor
its customer; with `alreadyCancelled` iff it exists, the requester is
authorized, and the status is already `cancelled`; with `pastBooking` iff
additionally the status is not `cancelled` but the start time is before the
current time; and otherwise it returns the booking updated to status
`cancelled` with cancelledBy, cancelledAt and the cancel reason recorded. -/
theorem cancelBooking_taxonomy (B : List Booking)
    (bookingId userId reason : String) (now : Int) :
    (cancelBooking B bookingId userId reason now = Except.error CancelError.notFound ↔
      B.find? (fun b => b.id = bookingId) = none) ∧
    (cancelBooking B bookingId userId reason now = Except.error CancelError.unauthorized ↔
      (∃ b, B.find? (fun b2 => b2.id = bookingId) = some b ∧
        b.vendorId ≠ userId ∧ b.userId ≠ userId)) ∧
    (cancelBooking B bookingId userId reason now = Except.error CancelError.alreadyCancelled ↔
      (∃ b, B.find? (fun b2 => b2.id = bookingId) = some b ∧
        (b.vendorId = userId ∨ b.userId = userId) ∧ b.status = "cancelled")) ∧
    (cancelBooking B bookingId userId reason now = Except.error CancelError.pastBooking ↔
      (∃ b, B.find? (fun b2 => b2.id = bookingId) = some b ∧
        (b.vendorId = userId ∨ b.userId = userId) ∧ b.status ≠ "cancelled" ∧
        b.startTime < now)) ∧
    (∀ b, B.find? (fun b2 => b2.id = bookingId) = some b →
      (b.vendorId = userId ∨ b.userId = userId) →
      b.status ≠ "cancelled" → ¬ b.startTime < now →
      cancelBooking B bookingId userId reason now =
        Except.ok { b with
          status := "cancelled"
          cancelReason := some reason
          cancelledBy := some userId
          cancelledAt := some now
          updatedAt := some now }) := by
  rcases hfind : B.find? (fun b => b.id = bookingId) with _ | b
  · have hred : cancelBooking B bookingId userId reason now =
        Except.error CancelError.notFound := by
      simp only [cancelBooking, hfind]
    refine ⟨by simp [hred, hfind], ?_, ?_, ?_, ?_⟩
    · rw [hred]
      constructor
      · intro h
        exact absurd h (by simp)
      · rintro ⟨b2, hb2, _⟩
        rw [hfind] at hb2
        exact absurd hb2 (by simp)
    · rw [hred]
      constructor
      · intro h
        exact absurd h (by simp)
      · rintro ⟨b2, hb2, _⟩
        rw [hfind] at hb2
        exact absurd hb2 (by simp)
    · rw [hred]
      constructor
      · intro h
        exact absurd h (by simp)
      · rintro ⟨b2, hb2, _⟩
        rw [hfind] at hb2
        exact absurd hb2 (by simp)
    · intro b2 hb2
      rw [hfind] at hb2
      exact absurd hb2 (by simp)
  · by_cases hauth : b.vendorId ≠ userId ∧ b.userId ≠ userId
    · have hred : cancelBooking B bookingId userId reason now =
          Except.error CancelError.unauthorized := by
        simp only [cancelBooking, hfind]
        rw [if_pos hauth]
      refine ⟨?_, ?_, ?_, ?_, ?_⟩
      · rw [hred]
        constructor
        · intro h
          exact absurd h (by simp)
        · intro h
          rw [hfind] at h
          exact absurd h (by simp)
      · rw [hred]
        constructor
        · intro _
          exact ⟨b, hfind, hauth⟩
        · intro _
          rfl
      · rw [hred]
        constructor
        · intro h
          exact absurd h (by simp)
        · rintro ⟨b2, hb2, hor, _⟩
          rw [hfind] at hb2
          injection hb2 with hb2
          subst hb2
          rcases hor with h | h
          · exact absurd h hauth.1
          · exact absurd h hauth.2
      · rw [hred]
        constructor
        · intro h
          exact absurd h (by simp)
        · rintro ⟨b2, hb2, hor, _⟩
          rw [hfind] at hb2
          injection hb2 with hb2
          subst hb2
          rcases hor with h | h
          · exact absurd h hauth.1
          · exact absurd h hauth.2
      · intro b2 hb2 hor _ _
        rw [hfind] at hb2
        injection hb2 with hb2
        subst hb2
        rcases hor with h | h
        · exact absurd h hauth.1
        · exact absurd h hauth.2
    · have hor : b.vendorId = userId ∨ b.userId = userId := by
        by_contra hno
        push_neg at hno
        exact hauth ⟨hno.1, hno.2⟩
      by_cases hcanc : b.status = "cancelled"
      · have hred : cancelBooking B bookingId userId reason now =
            Except.error CancelError.alreadyCancelled := by
          simp only [cancelBooking, hfind]
          rw [if_neg hauth, if_pos hcanc]
        refine ⟨?_, ?_, ?_, ?_, ?_⟩
        · rw [hred]
          constructor
          · intro h
            exact absurd h (by simp)
          · intro h
            rw [hfind] at h
            exact absurd h (by simp)
        · rw [hred]
          constructor
          · intro h
            exact absurd h (by simp)
          · rintro ⟨b2, hb2, hne⟩
            rw [hfind] at hb2
            injection hb2 with hb2
            subst hb2
            exact absurd hne hauth
        · rw [hred]
          constructor
          · intro _
            exact ⟨b, hfind, hor, hcanc⟩
          · intro _
            rfl
        · rw [hred]
          constructor
          · intro h
            exact absurd h (by simp)
          · rintro ⟨b2, hb2, _, hnc, _⟩
            rw [hfind] at hb2
            injection hb2 with hb2
            subst hb2
            exact absurd hcanc hnc
        · intro b2 hb2 _ hnc _
          rw [hfind] at hb2
          injection hb2 with hb2
          subst hb2
          exact absurd hcanc hnc
      · by_cases hpast : b.startTime < now
        · have hred : cancelBooking B bookingId userId reason now =
              Except.error CancelError.pastBooking := by
            simp only [cancelBooking, hfind]
            rw [if_neg hauth, if_neg hcanc, if_pos hpast]
          refine ⟨?_, ?_, ?_, ?_, ?_⟩
          · rw [hred]
            constructor
            · intro h
              exact absurd h (by simp)
            · intro h
              rw [hfind] at h
              exact absurd h (by simp)
          · rw [hred]
            constructor
            · intro h
              exact absurd h (by simp)
            · rintro ⟨b2, hb2, hne⟩
              rw [hfind] at hb2
              injection hb2 with hb2
              subst hb2
              exact absurd hne hauth
          · rw [hred]
            constructor
            · intro h
              exact absurd h (by simp)
            · rintro ⟨b2, hb2, _, hc⟩
              rw [hfind] at hb2
              injection hb2 with hb2
              subst hb2
              exact absurd hc hcanc
          · rw [hred]
            constructor
            · intro _
              exact ⟨b, hfind, hor, hcanc, hpast⟩
            · intro _
              rfl
          · intro b2 hb2 _ _ hnp
            rw [hfind] at hb2
            injection hb2 with hb2
            subst hb2
            exact absurd hpast hnp
        · have hred : cancelBooking B bookingId userId reason now =
              Except.ok { b with
                status := "cancelled"
                cancelReason := some reason
                cancelledBy := some userId
                cancelledAt := some now
                updatedAt := some now } := by
            simp only [cancelBooking, hfind]
            rw [if_neg hauth, if_neg hcanc, if_neg hpast]
          refine ⟨?_, ?_, ?_, ?_, ?_⟩
          · rw [hred]
            constructor
            · intro h
              exact absurd h (by simp)
            · intro h
              rw [hfind] at h
              exact absurd h (by simp)
          · rw [hred]
            constructor
            · intro h
              exact absurd h (by simp)
            · rintro ⟨b2, hb2, hne⟩
              rw [hfind] at hb2
              injection hb2 with hb2
              subst hb2
              exact absurd hne hauth
          · rw [hred]
            constructor
            · intro h
              exact absurd h (by simp)
            · rintro ⟨b2, hb2, _, hc⟩
              rw [hfind] at hb2
              injection hb2 with hb2
              subst hb2
              exact absurd hc hcanc
          · rw [hred]
            constructor
            · intro h
              exact absurd h (by simp)
            · rintro ⟨b2, hb2, _, _, hp⟩
              rw [hfind] at hb2
              injection hb2 with hb2
              subst hb2
              exact absurd hp hpast
          · intro b2 hb2 _ _ _
            rw [hfind] at hb2
            injection hb2 with hb2
            subst hb2
            exact hred

/-- A confirmed future booking owned by vendor `v1`, for the cancellation
witness. -/
def c8Booking : Booking :=
  { id := "b8", listingId := "L", vendorId := "v1", userId := "u1",
    startTime := 100, endTime := 200, status := "confirmed",
    paymentStatus := "pending", totalAmount := 50,
    stripePaymentIntentId := none, stripePaymentId := none,
    cancelledBy := none, cancelledAt := none, cancelReason := none,
    createdAt := 0, updatedAt := none }

/-- Witness for C8 at a concrete input: the vendor cancels a future,
not-yet-cancelled booking, and the returned record carries status
`cancelled` with the cancellation metadata. -/
theorem cancelBooking_taxonomy_witness :
    cancelBooking [c8Booking] "b8" "v1" "weather" 5 =
      Except.ok { c8Booking with
        status := "cancelled"
        cancelReason := some "weather"
        cancelledBy := some "v1"
        cancelledAt := some 5
        updatedAt := some 5 } :=
  (cancelBooking_taxonomy [c8Booking] "b8" "v1" "weather" 5).2.2.2.2 c8Booking
    (by decide) (Or.inl rfl) (by decide) (by decide)

/-! ## Booking update endpoint (bookingController.js) -/

/-- The allow-listed request body of the booking update endpoint
(bookingController.js lines 160-171); a `none` field is absent from the
request body. -/
structure UpdateBody where
  status : Option String
  startTime : Option Int
  endTime : Option Int
  notes : Option String
  customerName : Option String
  customerEmail : Option String
  customerPhone : Option String
  totalAmount : Option Rat
deriving DecidableEq, Repr

/-- The field-merge loop of `updateBooking`: every allow-listed field
present in the body overwrites the stored value, and `updatedAt` is
stamped. -/
def applyUpdateFields (b : Booking) (body : UpdateBody) (now : Int) : Booking :=
  let b1 := match body.status with
    | none => b
    | some v => { b with status := v }
  let b2 := match body.startTime with
    | none => b1
    | some v => { b1 with startTime := v }
  let b3 := match body.endTime with
    | none => b2
    | some v => { b2 with endTime := v }
  let b4 := match body.notes with
    | none => b3
    | some v => { b3 with notes := v }
  let b5 := match body.customerName with
    | none => b4
    | some v => { b4 with customerName := v }
  let b6 := match body.customerEmail with
    | none => b5
    | some v => { b5 with customerEmail := v }
  let b7 := match body.customerPhone with
    | none => b6
    | some v => { b6 with customerPhone := v }
  let b8 := match body.totalAmount with
    | none => b7
    | some v => { b7 with totalAmount := v }
  { b8 with updatedAt := some now }

/-- The outcomes of the booking update endpoint. -/
inductive UpdateResult where
  | notFound
  | unauthorized
  | ok (b : Booking)
deriving DecidableEq, Repr

/-- `updateBooking` (bookingController.js lines 144-185): loads the
booking, authorizes the vendor, then merges the allow-listed body fields —
including `status` — into the document with no check of the current status
and no transition rule. -/
def controllerUpdateBooking (bookings : List Booking)
    (bookingId requesterId : String) (body : UpdateBody) (now : Int) :
    UpdateResult :=
  match bookings.find? (fun b => b.id = bookingId) with
  | none => UpdateResult.notFound
  | some b =>
      if b.vendorId ≠ requesterId then UpdateResult.unauthorized
      else UpdateResult.ok (applyUpdateFields b body now)

/-- A cancelled booking owned by vendor `v1`. -/
def c4Booking : Booking :=
  { id := "b4", listingId := "L", vendorId := "v1", userId := "u1",
    startTime := 100, endTime := 200, status := "cancelled",
    paymentStatus := "pending", totalAmount := 50,
    stripePaymentIntentId := none, stripePaymentId := none,
    cancelledBy := some "u1", cancelledAt := some 1,
    cancelReason := some "changed plans", createdAt := 0, updatedAt := none }

/-- A request body that only sets `status` to `confirmed`. -/
def c4Body : UpdateBody :=
  { status := some "confirmed", startTime := none, endTime := none,
    notes := none, customerName := none, customerEmail := none,
    customerPhone := none, totalAmount := none }

/-- C4. The update endpoint moves a booking whose status is `cancelled`
back to `confirmed`: the vendor submits `status = "confirmed"` and the
endpoint persists it, so `cancelled` is not terminal under the booking
update operation. -/
theorem updateBooking_escapes_cancelled :
    c4Booking.status = "cancelled" ∧
    controllerUpdateBooking [c4Booking] "b4" "v1" c4Body 7 =
      UpdateResult.ok { c4Booking with
        status := "confirmed"
        updatedAt := some 7 } := by decide

/-! ## Metrics aggregator (BookingService.getBookingMetrics) -/

/-- The counters accumulated by the single pass of `getBookingMetrics`. -/
structure Metrics where
  totalBookings : Nat
  pendingBookings : Nat
  confirmedBookings : Nat
  cancelledBookings : Nat
  upcomingBookings : Nat
  pastBookings : Nat
  totalRevenue : Rat
deriving DecidableEq, Repr

/-- One iteration of the `forEach` loop of `getBookingMetrics`
(bookingService.js lines 298-319): count by status, split upcoming vs past
by comparing the start time to the current time, and add `totalAmount` to
the revenue only when `paymentStatus` is `paid`. -/
def metricsStep (now : Int) (m : Metrics) (b : Booking) : Metrics :=
  let m1 :=
    if b.status = "pending" then
      { m with pendingBookings := m.pendingBookings + 1 }
    else if b.status = "confirmed" then
      { m with confirmedBookings := m.confirmedBookings + 1 }
    else if b.status = "cancelled" then
      { m with cancelledBookings := m.cancelledBookings + 1 }
    else m
  let m2 :=
    if now < b.startTime then
      { m1 with upcomingBookings := m1.upcomingBookings + 1 }
    else
      { m1 with pastBookings := m1.pastBookings + 1 }
  if b.paymentStatus = "paid" then
    { m2 with totalRevenue := m2.totalRevenue + b.totalAmount }
  else m2

/-- `BookingService.getBookingMetrics` (bookingService.js lines 280-334):
queries the bookings of the vendor and folds the counters over them; the
transactions collection is never read. -/
def getBookingMetrics (bookings : List Booking) (vendorId : String)
    (now : Int) : Metrics :=
  let vendorBookings := bookings.filter (fun b => b.vendorId = vendorId)
  vendorBookings.foldl (metricsStep now)
    { totalBookings := vendorBookings.length, pendingBookings := 0,
      confirmedBookings := 0, cancelledBookings := 0, upcomingBookings := 0,
      pastBookings := 0, totalRevenue := 0 }

/-- The revenue figure the specification describes, written from the spec
text for comparison with the code: the sum of `amount` over the vendor
transactions whose status is `completed`. -/
def revenueFromCompletedTransactions (transactions : List Transaction)
    (vendorId : String) : Rat :=
  (transactions.filter fun t =>
      decide (t.vendorId = vendorId) && decide (t.status = "completed")).foldl
    (fun acc t => acc + t.amount) 0

/-- A vendor `v` booking, paid, with totalAmount 30. -/
def c9Booking : Booking :=
  { id := "b1", listingId := "L", vendorId := "v", userId := "u1",
    startTime := 100, endTime := 200, status := "confirmed",
    paymentStatus := "paid", totalAmount := 30,
    stripePaymentIntentId := none, stripePaymentId := some "pi_1",
    cancelledBy := none, cancelledAt := none, cancelReason := none,
    createdAt := 0, updatedAt := none }

/-- A completed transaction of vendor `v` with amount 50. -/
def c9Transaction : Transaction :=
  { bookingId := "b0", vendorId := "v", amount := 50, fee := 5 / 2,
    net := 95 / 2, stripePaymentId := "pi_0", status := "completed",
    createdAt := 0 }

/-- C9 counterexample: with one completed transaction of amount 50 and one
paid booking of totalAmount 30 for vendor `v`, the aggregator reports
revenue 30 — the paid-booking sum — not the 50 that the sum over completed
transactions would give, so the revenue figure is derived from booking
records and not from transactions. -/
theorem metrics_revenue_differs_from_transactions :
    (getBookingMetrics [c9Booking] "v" 0).totalRevenue = 30 ∧
    revenueFromCompletedTransactions [c9Transaction] "v" = 50 ∧
    (30 : Rat) ≠ 50 := by
  refine ⟨?_, ?_, by norm_num⟩
  · show (0 : Rat) + 30 = 30
    norm_num
  · show (0 : Rat) + 50 = 50
    norm_num

lemma metricsStep_totalRevenue (now : Int) (m : Metrics) (b : Booking) :
    (metricsStep now m b).totalRevenue =
      if b.paymentStatus = "paid" then m.totalRevenue + b.totalAmount
      else m.totalRevenue := by
  unfold metricsStep
  by_cases hp : b.paymentStatus = "paid" <;>
    by_cases h1 : b.status = "pending" <;>
    by_cases h2 : b.status = "confirmed" <;>
    by_cases h3 : b.status = "cancelled" <;>
    by_cases h4 : now < b.startTime <;>
    simp [hp, h1, h2, h3, h4]

lemma foldl_metricsStep_revenue (now : Int) (l : List Booking) (m : Metrics) :
    (l.foldl (metricsStep now) m).totalRevenue =
      (l.filter (fun b => b.paymentStatus = "paid")).foldl
        (fun acc b => acc + b.totalAmount) m.totalRevenue := by
  induction l generalizing m with
  | nil => rfl
  | cons b rest ih =>
      simp only [List.foldl_cons, List.filter_cons]
      by_cases hp : b.paymentStatus = "paid"
      · simp [hp, ih, metricsStep_totalRevenue]
      · simp [hp, ih, metricsStep_totalRevenue]

/-- C9 as amended: for every store, vendor and read time, the aggregator
revenue equals the sum of `totalAmount` over that vendor's bookings whose
`paymentStatus` is `paid`; it is computed from booking records alone. -/
theorem metrics_revenue_from_paid_bookings (bookings : List Booking)
    (vendorId : String) (now : Int) :
    (getBookingMetrics bookings vendorId now).totalRevenue =
      ((bookings.filter (fun b => b.vendorId = vendorId)).filter
        (fun b => b.paymentStatus = "paid")).foldl
        (fun acc b => acc + b.totalAmount) 0 := by
  unfold getBookingMetrics
  rw [foldl_metricsStep_revenue]

/-! ## Payment intent creation endpoint (paymentController.js) -/

/-- JS truthiness of an optional string request field: `undefined` or the
empty string is falsy. -/
def stringFalsy (s : Option String) : Bool :=
  match s with
  | none => true
  | some v => decide (v = "")

/-- JS truthiness of an optional numeric request field: `undefined` or `0`
is falsy. -/
def numFalsy (a : Option Rat) : Bool :=
  match a with
  | none => true
  | some v => decide (v = 0)

/-- The outcomes of the createPaymentIntent endpoint; `ok` carries the
updated bookings store and the client secret returned to the caller. -/
inductive PaymentIntentResult where
  | missingFields
  | bookingNotFound
  | unauthorized
  | ok (bookings : List Booking) (clientSecret : String)
deriving DecidableEq, Repr

/-- `createPaymentIntent` (paymentController.js lines 10-67): rejects a
falsy bookingId or amount, loads the booking, authorizes the vendor or the
customer, asks the processor for an intent (modelled by the fresh
`newIntentId` and `newClientSecret` the processor returns), then updates
the booking with `stripePaymentIntentId := newIntentId` and
`paymentStatus := "pending"` — with no check of the current payment
status. -/
def controllerCreatePaymentIntent (bookings : List Booking)
    (bodyBookingId : Option String) (bodyAmount : Option Rat)
    (requesterId newIntentId newClientSecret : String) :
    PaymentIntentResult :=
  if stringFalsy bodyBookingId || numFalsy bodyAmount then
    PaymentIntentResult.missingFields
  else
    let bookingId := bodyBookingId.getD ""
    match bookings.find? (fun b => b.id = bookingId) with
    | none => PaymentIntentResult.bookingNotFound
    | some b =>
        if b.vendorId ≠ requesterId ∧ b.userId ≠ requesterId then
          PaymentIntentResult.unauthorized
        else
          PaymentIntentResult.ok
            (updateBookingDoc bookings bookingId fun b2 =>
              { b2 with
                stripePaymentIntentId := some newIntentId
                paymentStatus := "pending" })
            newClientSecret

/-- C10. For every store, every existing booking and every authorized
requester (vendor or customer), a successful createPaymentIntent call
returns an updated store in which the target booking's `paymentStatus` is
`pending` and its `stripePaymentIntentId` is the new intent id — whatever
the booking's payment status was before, since the endpoint never reads
it. -/
theorem createPaymentIntent_resets_paymentStatus (bookings : List Booking)
    (bid : String) (amount : Rat) (requesterId newIntentId secret : String)
    (b : Booking) (hbid : bid ≠ "") (hamount : amount ≠ 0)
    (hfind : bookings.find? (fun b2 => b2.id = bid) = some b)
    (hauth : b.vendorId = requesterId ∨ b.userId = requesterId) :
    controllerCreatePaymentIntent bookings (some bid) (some amount)
        requesterId newIntentId secret =
      PaymentIntentResult.ok
        (updateBookingDoc bookings bid fun b2 =>
          { b2 with
            stripePaymentIntentId := some newIntentId
            paymentStatus := "pending" }) secret ∧
    ∀ b2 ∈ updateBookingDoc bookings bid (fun b3 =>
        { b3 with
          stripePaymentIntentId := some newIntentId
          paymentStatus := "pending" }),
      b2.id = bid →
        b2.paymentStatus = "pending" ∧
        b2.stripePaymentIntentId = some newIntentId := by
  have hfalse : (stringFalsy (some bid) || numFalsy (some amount)) = false := by
    simp [stringFalsy, numFalsy, hbid, hamount]
  have hnauth : ¬ (b.vendorId ≠ requesterId ∧ b.userId ≠ requesterId) := by
    rcases hauth with h | h
    · intro hc
      exact hc.1 h
    · intro hc
      exact hc.2 h
  constructor
  · simp only [controllerCreatePaymentIntent, hfalse, Bool.false_eq_true,
      if_false, Option.getD_some, hfind]
    rw [if_neg hnauth]
  · intro b2 hb2 hid
    simp only [updateBookingDoc, List.mem_map] at hb2
    obtain ⟨b3, _, hb3⟩ := hb2
    by_cases h : b3.id = bid
    · rw [if_pos h] at hb3
      subst hb3
      exact ⟨rfl, rfl⟩
    · rw [if_neg h] at hb3
      subst hb3
      exact absurd hid h

/-- A booking already paid, with an old intent id, owned by vendor `v1`. -/
def c10Booking : Booking :=
  { id := "b1", listingId := "L", vendorId := "v1", userId := "u1",
    startTime := 100, endTime := 200, status := "confirmed",
    paymentStatus := "paid", totalAmount := 50,
    stripePaymentIntentId := some "pi_old", stripePaymentId := some "pi_old",
    cancelledBy := none, cancelledAt := none, cancelReason := none,
    createdAt := 0, updatedAt := none }

/-- Witness for C10 at a concrete input: creating a new intent for a
booking whose paymentStatus is already `paid` resets it to `pending` and
replaces the stored intent id. -/
theorem createPaymentIntent_resets_paymentStatus_witness :
    controllerCreatePaymentIntent [c10Booking] (some "b1") (some 50)
        "v1" "pi_new" "sec" =
      PaymentIntentResult.ok
        (updateBookingDoc [c10Booking] "b1" fun b2 =>
          { b2 with
            stripePaymentIntentId := some "pi_new"
            paymentStatus := "pending" }) "sec" ∧
    ∀ b2 ∈ updateBookingDoc [c10Booking] "b1" (fun b3 =>
        { b3 with
          stripePaymentIntentId := some "pi_new"
          paymentStatus := "pending" }),
      b2.id = "b1" →
        b2.paymentStatus = "pending" ∧
        b2.stripePaymentIntentId = some "pi_new" :=
  createPaymentIntent_resets_paymentStatus [c10Booking] "b1" 50 "v1"
    "pi_new" "sec" c10Booking (by decide) (by decide) (by decide)
    (Or.inl rfl)

/-- Witness for C6 at a concrete input: creating a booking at `[11, 12)` on
listing `L` while the pending booking `c1Booking` occupies `[11, 12)` fails
with the conflict error, via the taxonomy theorem. -/
theorem createBooking_error_taxonomy_witness :
    createBooking [c7Listing] [c1Booking]
        { listingId := "L", userId := "u2", startTime := 11, endTime := 12,
          totalAmount := none, status := none } "nb" 0 =
      Except.error CreateError.conflict :=
  (createBooking_error_taxonomy [c7Listing] [c1Booking]
      { listingId := "L", userId := "u2", startTime := 11, endTime := 12,
        totalAmount := none, status := none } "nb" 0).2.2.2.1.mpr
    ⟨⟨c7Listing, by decide, rfl⟩, by decide, by rfl⟩
